import Mathlib

/-!
Verification of the lifecycle contract of the MongoDB C++ driver client
initialization layer (`src/src/mongo/client/init.h`).

The repository files provide the declarations and documented contracts of
`mongo::client::initialize`, `mongo::client::shutdown` and the RAII class
`mongo::client::GlobalInstance` (whose inline accessors `status()` and
`initialized()` are defined in the header).  The bodies of the free
functions and of the constructor/destructor/`shutdown` method are not in
the repository files, so they are modelled here from the specification's
description of the process-wide lifecycle state machine, the
ExitCoordinator and the RAII coordination layer.
-/

namespace MongoClient

/-- Error kinds carried by a failed `Status` (spec section 3). -/
inductive ErrorKind where
  | AlreadyInitialized
  | NotInitialized
  | ShutdownInProgress
  | ExceededTimeLimit
  | PermanentFailure
  | InvalidOptions
  deriving DecidableEq, Repr

/-- `mongo::Status`: either `Ok` or a categorized failure with a message
(spec section 3: tagged value, never absent). -/
inductive Status where
  | ok
  | failed (kind : ErrorKind) (message : String)
  deriving DecidableEq, Repr

/-- `Status::isOK` from `mongo/base/status.h`: true exactly on `ok`. -/
def Status.isOK : Status → Bool
  | .ok => true
  | .failed _ _ => false

/-- The error kind of a `Status`, `none` on `ok`. -/
def Status.kind : Status → Option ErrorKind
  | .ok => none
  | .failed k _ => some k

/-- `mongo::client::Options` (spec section 3): the shutdown grace period
(a duration, modelled as an integer number of milliseconds so that a
negative, nonsensical value is representable) and whether shutdown is
auto-registered to run at process exit. -/
structure Options where
  shutdownGracePeriod : Int := 0
  callShutdownAtExit : Bool := false
  deriving DecidableEq, Repr

/-- The process-wide lifecycle state machine's states (spec section 3). -/
inductive LifecycleState where
  | Uninitialized
  | Initializing
  | Initialized
  | ShuttingDown
  | ShutDown
  | Failed
  deriving DecidableEq, Repr

/-- Outcome of the opaque delegated driver setup (spec section 1: the
actual driver machinery is external, treated as an operation returning
success or failure). -/
inductive SetupOutcome where
  | success
  | failure
  deriving DecidableEq, Repr

/-- Outcome of the opaque delegated driver teardown: it may complete in
time, exceed the configured grace period, or fail permanently
(spec sections 4.1 and 7). -/
inductive TeardownOutcome where
  | success
  | timeout
  | permanentFailure
  deriving DecidableEq, Repr

/-- The process-wide mutable state: the lifecycle state machine, the
ExitCoordinator's armed flag, the grace period recorded at initialization
time, and instrumentation counters recording how many times the opaque
driver setup and teardown operations were invoked (spec section 8 observes
the stubbed driver operations through such counters). -/
structure GlobalState where
  lifecycle : LifecycleState
  autoShutdownArmed : Bool
  gracePeriod : Int
  setupRuns : Nat
  teardownRuns : Nat
  deriving DecidableEq, Repr

/-- The state at process start: uninitialized, no automatic hook armed,
no driver operation has run. -/
def initState : GlobalState :=
  { lifecycle := .Uninitialized
    autoShutdownArmed := false
    gracePeriod := 0
    setupRuns := 0
    teardownRuns := 0 }

/-- Modelled from the spec: `mongo::client::initialize` (declared at
src/src/mongo/client/init.h:49; its body is not among the repository
files).  Spec section 4.1: calling it in any state other than
`Uninitialized` fails immediately with `AlreadyInitialized`, without
touching the underlying driver; otherwise it validates the options
(failing with `InvalidOptions` on a negative grace period before any
global-state change), then delegates to the driver's setup; on success it
transitions to `Initialized`, records the grace period and, if
`callShutdownAtExit`, registers the automatic hook with the
ExitCoordinator; on setup failure it transitions to `Failed`
(a permanent failure). -/
def initializeClient (opts : Options) (o : SetupOutcome) (s : GlobalState) :
    Status × GlobalState :=
  if s.lifecycle ≠ .Uninitialized then
    (.failed .AlreadyInitialized "client already initialized", s)
  else if opts.shutdownGracePeriod < 0 then
    (.failed .InvalidOptions "negative shutdown grace period", s)
  else
    match o with
    | .success =>
        (.ok,
         { s with
             lifecycle := .Initialized
             gracePeriod := opts.shutdownGracePeriod
             autoShutdownArmed := s.autoShutdownArmed || opts.callShutdownAtExit
             setupRuns := s.setupRuns + 1 })
    | .failure =>
        (.failed .PermanentFailure "driver setup failed",
         { s with lifecycle := .Failed, setupRuns := s.setupRuns + 1 })

/-- Modelled from the spec: `mongo::client::shutdown` (declared at
src/src/mongo/client/init.h:61; its body is not among the repository
files).  Spec sections 4.1 and 8: called before any successful
initialization it fails immediately with `NotInitialized` (this covers
both the `Uninitialized` state and the `Failed` state left by a failed
initialization, in which there is nothing to tear down); called in
`ShutDown` it succeeds trivially as an idempotent no-op; a caller arriving
while a transition is in flight receives `ShutdownInProgress`; in
`Initialized` it delegates to the driver's teardown bounded by the grace
period: on timeout it returns `ExceededTimeLimit` leaving the state at
`Initialized` so the caller may retry, on a permanent failure it moves to
`Failed`, and on success it moves to the terminal `ShutDown` state and
disarms the ExitCoordinator's automatic hook (`markHandled`). -/
def shutdownClient (o : TeardownOutcome) (s : GlobalState) :
    Status × GlobalState :=
  match s.lifecycle with
  | .Uninitialized => (.failed .NotInitialized "client not initialized", s)
  | .Failed => (.failed .NotInitialized "client not initialized", s)
  | .Initializing => (.failed .ShutdownInProgress "transition in flight", s)
  | .ShuttingDown => (.failed .ShutdownInProgress "transition in flight", s)
  | .ShutDown => (.ok, s)
  | .Initialized =>
      match o with
      | .success =>
          (.ok,
           { s with
               lifecycle := .ShutDown
               autoShutdownArmed := false
               teardownRuns := s.teardownRuns + 1 })
      | .timeout =>
          (.failed .ExceededTimeLimit "shutdown exceeded grace period",
           { s with teardownRuns := s.teardownRuns + 1 })
      | .permanentFailure =>
          (.failed .PermanentFailure "driver teardown failed",
           { s with lifecycle := .Failed, teardownRuns := s.teardownRuns + 1 })

/-- One externally triggered operation on the global state, together with
the outcome the opaque driver would produce if it is consulted. -/
inductive Op where
  | init (opts : Options) (o : SetupOutcome)
  | shut (o : TeardownOutcome)
  deriving DecidableEq, Repr

/-- One step of the lifecycle state machine. -/
def step : Op → GlobalState → Status × GlobalState
  | .init opts o, s => initializeClient opts o s
  | .shut o, s => shutdownClient o s

/-- Run a sequence of operations, keeping only the final global state. -/
def run : List Op → GlobalState → GlobalState
  | [], s => s
  | op :: ops, s => run ops (step op s).2

/-- Whether some `init` operation in the sequence, run from `s`, returns a
successful status. -/
def initSucceeded : List Op → GlobalState → Bool
  | [], _ => false
  | op :: ops, s =>
      (match op with
       | .init _ _ => (step op s).1.isOK
       | .shut _ => false)
      || initSucceeded ops (step op s).2

/-- A concrete successfully-initialized global state, used by witnesses. -/
def sInitialized : GlobalState :=
  { lifecycle := .Initialized
    autoShutdownArmed := false
    gracePeriod := 5
    setupRuns := 1
    teardownRuns := 0 }

/-- `mongo::client::GlobalInstance`'s fields (init.h lines 115-117):
`_terminateNeeded`, recording whether this instance is still responsible
for eventually calling shutdown, and the captured `const Status` of its
own initialization call. -/
structure GlobalInstance where
  terminateNeeded : Bool
  status : Status
  deriving DecidableEq, Repr

/-- Modelled from the spec: the `GlobalInstance` constructor (declared at
src/src/mongo/client/init.h:83; its body is not among the repository
files).  Spec section 4.3: it calls the client initialization with the
provided options, stores the resulting `Status`, and sets
`terminateNeeded` to `status.isOk() && !ExitCoordinator.isAutoShutdownArmed()`,
so a failed construction never sets `terminateNeeded`. -/
def GlobalInstance.construct (opts : Options) (o : SetupOutcome)
    (s : GlobalState) : GlobalInstance × GlobalState :=
  let r := initializeClient opts o s
  ({ terminateNeeded := r.1.isOK && !r.2.autoShutdownArmed, status := r.1 }, r.2)

/-- `GlobalInstance::initialized` (init.h lines 98-100, defined inline in
the header): returns `status().isOK()`. -/
def GlobalInstance.initialized (g : GlobalInstance) : Bool :=
  g.status.isOK

/-- Modelled from the spec: `GlobalInstance::shutdown` (declared at
src/src/mongo/client/init.h:113; its body is not among the repository
files).  Spec section 4.3: if `terminateNeeded` is false it returns `Ok`
immediately; otherwise it delegates to the global shutdown and, on an `Ok`
result, sets `terminateNeeded` to false, while on any non-`Ok` result it
leaves `terminateNeeded` true. -/
def GlobalInstance.shutdown (g : GlobalInstance) (o : TeardownOutcome)
    (s : GlobalState) : Status × GlobalInstance × GlobalState :=
  if g.terminateNeeded then
    let r := shutdownClient o s
    (r.1, { terminateNeeded := !r.1.isOK, status := g.status }, r.2)
  else
    (.ok, g, s)

/-- Modelled from the spec: the `GlobalInstance` destructor (declared at
src/src/mongo/client/init.h:90; its body is not among the repository
files).  Spec section 4.3: if `terminateNeeded` is still true it invokes
the global shutdown and discards the result; otherwise it does nothing. -/
def GlobalInstance.destruct (g : GlobalInstance) (o : TeardownOutcome)
    (s : GlobalState) : GlobalState :=
  if g.terminateNeeded then (shutdownClient o s).2 else s

/-- A sequence of explicit `GlobalInstance::shutdown` calls, threading the
instance and the global state. -/
def runShutdowns : GlobalInstance → List TeardownOutcome → GlobalState →
    GlobalInstance × GlobalState
  | g, [], s => (g, s)
  | g, o :: os, s =>
      runShutdowns (GlobalInstance.shutdown g o s).2.1 os
        (GlobalInstance.shutdown g o s).2.2

/-! ### Helper lemmas about the lifecycle state machine -/

theorem initializeClient_of_ne_uninit (opts : Options) (o : SetupOutcome)
    (s : GlobalState) (h : s.lifecycle ≠ .Uninitialized) :
    initializeClient opts o s =
      (.failed .AlreadyInitialized "client already initialized", s) := by
  simp [initializeClient, h]

theorem initializeClient_ok_lifecycle (opts : Options) (o : SetupOutcome)
    (s : GlobalState) (h : (initializeClient opts o s).1.isOK = true) :
    ((initializeClient opts o s).2).lifecycle = .Initialized := by
  unfold initializeClient at h ⊢
  by_cases h1 : s.lifecycle = .Uninitialized
  · by_cases h2 : opts.shutdownGracePeriod < 0
    · simp [h1, h2, Status.isOK] at h
    · cases o with
      | success => simp [h1, h2]
      | failure => simp [h1, h2, Status.isOK] at h
  · simp [h1, Status.isOK] at h

theorem step_preserves_ne_uninit (op : Op) (s : GlobalState)
    (h : s.lifecycle ≠ .Uninitialized) :
    ((step op s).2).lifecycle ≠ .Uninitialized := by
  cases op with
  | init opts o => simp [step, initializeClient, h]
  | shut o =>
      rcases s with ⟨l, a, g, su, td⟩
      cases l <;> cases o <;> simp_all [step, shutdownClient]

theorem run_preserves_ne_uninit (ops : List Op) (s : GlobalState)
    (h : s.lifecycle ≠ .Uninitialized) :
    (run ops s).lifecycle ≠ .Uninitialized := by
  induction ops generalizing s with
  | nil => exact h
  | cons op ops ih => exact ih _ (step_preserves_ne_uninit op s h)

theorem shutdownClient_ok_lifecycle (o : TeardownOutcome) (s : GlobalState)
    (h : (shutdownClient o s).1.isOK = true) :
    ((shutdownClient o s).2).lifecycle = .ShutDown := by
  rcases s with ⟨l, a, g, su, td⟩
  cases l <;> cases o <;> simp_all [shutdownClient, Status.isOK]

theorem shutdownClient_of_shutDown (o : TeardownOutcome) (s : GlobalState)
    (h : s.lifecycle = .ShutDown) : shutdownClient o s = (.ok, s) := by
  unfold shutdownClient
  split <;> simp_all

theorem shutdownClient_of_not_init (o : TeardownOutcome) (s : GlobalState)
    (h : s.lifecycle = .Uninitialized ∨ s.lifecycle = .Failed) :
    shutdownClient o s =
      (.failed .NotInitialized "client not initialized", s) := by
  unfold shutdownClient
  rcases h with h | h <;> (split <;> simp_all)

theorem step_fixes_shutDown (op : Op) (s : GlobalState)
    (h : s.lifecycle = .ShutDown) : (step op s).2 = s := by
  cases op with
  | init opts o => simp [step, initializeClient, h]
  | shut o => simp [step, shutdownClient, h]

theorem run_fixes_shutDown (ops : List Op) (s : GlobalState)
    (h : s.lifecycle = .ShutDown) : run ops s = s := by
  induction ops generalizing s with
  | nil => rfl
  | cons op ops ih =>
      show run ops (step op s).2 = s
      rw [step_fixes_shutDown op s h]
      exact ih s h

theorem no_init_success_lifecycle (ops : List Op) (s : GlobalState)
    (hs : s.lifecycle = .Uninitialized ∨ s.lifecycle = .Failed)
    (h : initSucceeded ops s = false) :
    (run ops s).lifecycle = .Uninitialized ∨ (run ops s).lifecycle = .Failed := by
  induction ops generalizing s with
  | nil => exact hs
  | cons op ops ih =>
      simp only [initSucceeded, Bool.or_eq_false_iff] at h
      refine ih (step op s).2 ?_ h.2
      cases op with
      | init opts o =>
          rcases hs with hu | hf
          · have h1 := h.1
            by_cases hg : opts.shutdownGracePeriod < 0
            · left
              simp [step, initializeClient, hu, hg]
            · cases o with
              | success =>
                  exfalso
                  simp [step, initializeClient, hu, hg, Status.isOK] at h1
              | failure =>
                  right
                  simp [step, initializeClient, hu, hg]
          · right
            simp [step, initializeClient, hf]
      | shut o =>
          rcases hs with hu | hf
          · simp [step, shutdownClient, hu]
          · simp [step, shutdownClient, hf]

/-! ### The claims -/

/-- C1: for every sequence of operations, calling the client
initialization a second time after a successful one returns a Status with
kind `AlreadyInitialized`, leaves the global state (the lifecycle state
and all effects of the first initialization, including the driver setup
invocation count) unchanged, and does not invoke the underlying driver's
setup again. -/
theorem second_call_returns_already_initialized (opts₁ opts₂ : Options)
    (o₁ o₂ : SetupOutcome) (s₀ : GlobalState) (ops : List Op)
    (h : (initializeClient opts₁ o₁ s₀).1.isOK = true) :
    initializeClient opts₂ o₂ (run ops (initializeClient opts₁ o₁ s₀).2) =
      (.failed .AlreadyInitialized "client already initialized",
       run ops (initializeClient opts₁ o₁ s₀).2) := by
  have h1 := initializeClient_ok_lifecycle opts₁ o₁ s₀ h
  have h2 : ((initializeClient opts₁ o₁ s₀).2).lifecycle ≠ .Uninitialized := by
    rw [h1]; intro hc; cases hc
  exact initializeClient_of_ne_uninit opts₂ o₂ _ (run_preserves_ne_uninit ops _ h2)

theorem second_call_returns_already_initialized_w :
    (initializeClient { shutdownGracePeriod := 5, callShutdownAtExit := false }
        .success initState).1.isOK = true ∧
    initializeClient { shutdownGracePeriod := 5, callShutdownAtExit := false }
        .success
        (run [] (initializeClient
          { shutdownGracePeriod := 5, callShutdownAtExit := false }
          .success initState).2) =
      (.failed .AlreadyInitialized "client already initialized",
       run [] (initializeClient
         { shutdownGracePeriod := 5, callShutdownAtExit := false }
         .success initState).2) :=
  ⟨rfl,
   second_call_returns_already_initialized
     { shutdownGracePeriod := 5, callShutdownAtExit := false }
     { shutdownGracePeriod := 5, callShutdownAtExit := false }
     .success .success initState [] rfl⟩

/-- C2: after any successful shutdown the lifecycle state is terminal: the
global state never changes again under any sequence of operations, every
later initialization attempt returns a non-Ok status and leaves the driver
setup invocation count unchanged, and the states `Uninitialized` and
`Initializing` are never reachable again. -/
theorem successful_shutdown_is_terminal (o₀ : TeardownOutcome) (s₀ : GlobalState)
    (h : (shutdownClient o₀ s₀).1.isOK = true) (ops : List Op) :
    run ops (shutdownClient o₀ s₀).2 = (shutdownClient o₀ s₀).2 ∧
    (∀ (opts : Options) (o : SetupOutcome),
      (initializeClient opts o (run ops (shutdownClient o₀ s₀).2)).1.isOK = false ∧
      ((initializeClient opts o (run ops (shutdownClient o₀ s₀).2)).2).setupRuns =
        ((shutdownClient o₀ s₀).2).setupRuns) ∧
    (run ops (shutdownClient o₀ s₀).2).lifecycle ≠ .Uninitialized ∧
    (run ops (shutdownClient o₀ s₀).2).lifecycle ≠ .Initializing := by
  have hl := shutdownClient_ok_lifecycle o₀ s₀ h
  have hrun := run_fixes_shutDown ops _ hl
  have hne : ((shutdownClient o₀ s₀).2).lifecycle ≠ .Uninitialized := by
    rw [hl]; intro hc; cases hc
  refine ⟨hrun, ?_, ?_, ?_⟩
  · intro opts o
    rw [hrun, initializeClient_of_ne_uninit opts o _ hne]
    exact ⟨rfl, rfl⟩
  · rw [hrun, hl]; intro hc; cases hc
  · rw [hrun, hl]; intro hc; cases hc

theorem successful_shutdown_is_terminal_w :
    (shutdownClient .success sInitialized).1.isOK = true ∧
    (run [] (shutdownClient .success sInitialized).2 =
      (shutdownClient .success sInitialized).2 ∧
    (∀ (opts : Options) (o : SetupOutcome),
      (initializeClient opts o
        (run [] (shutdownClient .success sInitialized).2)).1.isOK = false ∧
      ((initializeClient opts o
        (run [] (shutdownClient .success sInitialized).2)).2).setupRuns =
        ((shutdownClient .success sInitialized).2).setupRuns) ∧
    (run [] (shutdownClient .success sInitialized).2).lifecycle ≠ .Uninitialized ∧
    (run [] (shutdownClient .success sInitialized).2).lifecycle ≠ .Initializing) :=
  ⟨rfl, successful_shutdown_is_terminal .success sInitialized rfl []⟩

/-- C3: in any `Initialized` state, if the delegated teardown exceeds the
grace period then shutdown returns `ExceededTimeLimit`, the state is
unchanged except for the record that the teardown was attempted (in
particular the lifecycle state remains `Initialized`), and a subsequent
shutdown call is accepted and succeeds when the teardown completes in
time. -/
theorem shutdown_timeout_retryable (s : GlobalState)
    (h : s.lifecycle = .Initialized) :
    (shutdownClient .timeout s).1 =
      .failed .ExceededTimeLimit "shutdown exceeded grace period" ∧
    (shutdownClient .timeout s).2 = { s with teardownRuns := s.teardownRuns + 1 } ∧
    ((shutdownClient .timeout s).2).lifecycle = .Initialized ∧
    (shutdownClient .success (shutdownClient .timeout s).2).1 = .ok := by
  refine ⟨?_, ?_, ?_, ?_⟩ <;> simp [shutdownClient, h]

theorem shutdown_timeout_retryable_w :
    sInitialized.lifecycle = .Initialized ∧
    ((shutdownClient .timeout sInitialized).1 =
      .failed .ExceededTimeLimit "shutdown exceeded grace period" ∧
    (shutdownClient .timeout sInitialized).2 =
      { sInitialized with teardownRuns := sInitialized.teardownRuns + 1 } ∧
    ((shutdownClient .timeout sInitialized).2).lifecycle = .Initialized ∧
    (shutdownClient .success (shutdownClient .timeout sInitialized).2).1 = .ok) :=
  ⟨rfl, shutdown_timeout_retryable sInitialized rfl⟩

/-- C4: shutdown is idempotent after success: once a shutdown call has
succeeded, every later shutdown call (after any further sequence of
operations) returns `Ok` and leaves the global state unchanged, so no
further teardown effect is performed. -/
theorem shutdown_idempotent_after_success (o₀ : TeardownOutcome)
    (s₀ : GlobalState) (h : (shutdownClient o₀ s₀).1.isOK = true)
    (ops : List Op) (o : TeardownOutcome) :
    shutdownClient o (run ops (shutdownClient o₀ s₀).2) =
      (.ok, run ops (shutdownClient o₀ s₀).2) := by
  have hl := shutdownClient_ok_lifecycle o₀ s₀ h
  rw [run_fixes_shutDown ops _ hl]
  exact shutdownClient_of_shutDown o _ hl

theorem shutdown_idempotent_after_success_w :
    (shutdownClient .success sInitialized).1.isOK = true ∧
    shutdownClient .timeout (run [] (shutdownClient .success sInitialized).2) =
      (.ok, run [] (shutdownClient .success sInitialized).2) :=
  ⟨rfl, shutdown_idempotent_after_success .success sInitialized rfl [] .timeout⟩

/-- C5: for every sequence of operations from process start in which no
initialization succeeded, a shutdown call returns `NotInitialized` and
leaves the global state unchanged (in particular the driver's teardown is
not invoked and the lifecycle state does not change). -/
theorem shutdown_before_init_not_initialized (ops : List Op)
    (o : TeardownOutcome) (h : initSucceeded ops initState = false) :
    shutdownClient o (run ops initState) =
      (.failed .NotInitialized "client not initialized", run ops initState) := by
  exact shutdownClient_of_not_init o _
    (no_init_success_lifecycle ops initState (Or.inl rfl) h)

theorem shutdown_before_init_not_initialized_w :
    initSucceeded
        [Op.init { shutdownGracePeriod := -1, callShutdownAtExit := true } .success,
         Op.shut .success]
        initState = false ∧
    shutdownClient .timeout
        (run [Op.init { shutdownGracePeriod := -1, callShutdownAtExit := true } .success,
              Op.shut .success] initState) =
      (.failed .NotInitialized "client not initialized",
       run [Op.init { shutdownGracePeriod := -1, callShutdownAtExit := true } .success,
            Op.shut .success] initState) :=
  ⟨rfl,
   shutdown_before_init_not_initialized
     [Op.init { shutdownGracePeriod := -1, callShutdownAtExit := true } .success,
      Op.shut .success] .timeout rfl⟩

/-- C6: in the uninitialized state, initialization with an options value
whose grace period is negative returns `InvalidOptions` and makes no
global-state change at all (the state, hence the lifecycle state and the
driver setup invocation count, is exactly as before the call), and a later
initialization call with valid options on that same state is still able to
succeed. -/
theorem invalid_options_rejected (opts : Options) (o : SetupOutcome)
    (s : GlobalState) (hs : s.lifecycle = .Uninitialized)
    (hneg : opts.shutdownGracePeriod < 0) :
    initializeClient opts o s =
      (.failed .InvalidOptions "negative shutdown grace period", s) ∧
    ∀ (opts' : Options) (o' : SetupOutcome),
      0 ≤ opts'.shutdownGracePeriod → o' = .success →
        (initializeClient opts' o' s).1 = .ok ∧
        ((initializeClient opts' o' s).2).lifecycle = .Initialized := by
  constructor
  · simp [initializeClient, hs, hneg]
  · intro opts' o' hge ho
    subst ho
    constructor <;> simp [initializeClient, hs, not_lt.2 hge]

theorem invalid_options_rejected_w :
    initState.lifecycle = .Uninitialized ∧
    ((-2 : Int) < 0) ∧
    (initializeClient { shutdownGracePeriod := -2, callShutdownAtExit := true }
        .success initState =
      (.failed .InvalidOptions "negative shutdown grace period", initState) ∧
    ((0 : Int) ≤ (0 : Int)) ∧
    (initializeClient { shutdownGracePeriod := 0, callShutdownAtExit := true }
        .success initState).1 = .ok ∧
    ((initializeClient { shutdownGracePeriod := 0, callShutdownAtExit := true }
        .success initState).2).lifecycle = .Initialized) :=
  have h := invalid_options_rejected
    { shutdownGracePeriod := -2, callShutdownAtExit := true } .success initState
    rfl (by decide)
  ⟨rfl, by decide,
   h.1, le_refl 0,
   (h.2 { shutdownGracePeriod := 0, callShutdownAtExit := true } .success
     (le_refl 0) rfl).1,
   (h.2 { shutdownGracePeriod := 0, callShutdownAtExit := true } .success
     (le_refl 0) rfl).2⟩

theorem instance_shutdown_of_not_needed (g : GlobalInstance)
    (o : TeardownOutcome) (s : GlobalState) (h : g.terminateNeeded = false) :
    GlobalInstance.shutdown g o s = (.ok, g, s) := by
  simp [GlobalInstance.shutdown, h]

theorem destruct_of_not_needed (g : GlobalInstance) (o : TeardownOutcome)
    (s : GlobalState) (h : g.terminateNeeded = false) :
    GlobalInstance.destruct g o s = s := by
  simp [GlobalInstance.destruct, h]

theorem runShutdowns_of_not_needed (os : List TeardownOutcome)
    (g : GlobalInstance) (s : GlobalState) (h : g.terminateNeeded = false) :
    runShutdowns g os s = (g, s) := by
  induction os with
  | nil => rfl
  | cons o os ih =>
      show runShutdowns (GlobalInstance.shutdown g o s).2.1 os
        (GlobalInstance.shutdown g o s).2.2 = (g, s)
      rw [instance_shutdown_of_not_needed g o s h]
      exact ih

theorem instance_shutdown_status (g : GlobalInstance) (o : TeardownOutcome)
    (s : GlobalState) :
    ((GlobalInstance.shutdown g o s).2.1).status = g.status := by
  by_cases h : g.terminateNeeded <;> simp [GlobalInstance.shutdown, h]

theorem runShutdowns_status (os : List TeardownOutcome) (g : GlobalInstance)
    (s : GlobalState) : ((runShutdowns g os s).1).status = g.status := by
  induction os generalizing g s with
  | nil => rfl
  | cons o os ih =>
      show ((runShutdowns (GlobalInstance.shutdown g o s).2.1 os
        (GlobalInstance.shutdown g o s).2.2).1).status = g.status
      rw [ih, instance_shutdown_status]

/-- C7: at construction of a `GlobalInstance`, the stored
`terminateNeeded` flag equals `status.isOk() && !isAutoShutdownArmed()`:
constructed successfully at process start with `callShutdownAtExit` true
the instance has `terminateNeeded = false` and its destructor performs no
teardown, with `callShutdownAtExit` false it has `terminateNeeded = true`,
and a failed construction never sets `terminateNeeded`. -/
theorem terminateNeeded_at_construction (opts : Options) (o : SetupOutcome)
    (s : GlobalState) :
    ((GlobalInstance.construct opts o s).1.terminateNeeded =
      ((initializeClient opts o s).1.isOK &&
       !((initializeClient opts o s).2).autoShutdownArmed)) ∧
    (s.lifecycle = .Uninitialized → s.autoShutdownArmed = false →
     0 ≤ opts.shutdownGracePeriod → o = .success →
      (opts.callShutdownAtExit = true →
        (GlobalInstance.construct opts o s).1.terminateNeeded = false ∧
        ∀ (o' : TeardownOutcome),
          GlobalInstance.destruct (GlobalInstance.construct opts o s).1 o'
            (GlobalInstance.construct opts o s).2 =
            (GlobalInstance.construct opts o s).2) ∧
      (opts.callShutdownAtExit = false →
        (GlobalInstance.construct opts o s).1.terminateNeeded = true)) ∧
    ((GlobalInstance.construct opts o s).1.status.isOK = false →
      (GlobalInstance.construct opts o s).1.terminateNeeded = false) := by
  refine ⟨rfl, ?_, ?_⟩
  · intro hs ha hg ho
    subst ho
    constructor
    · intro hc
      have ht : (GlobalInstance.construct opts .success s).1.terminateNeeded
          = false := by
        simp [GlobalInstance.construct, initializeClient, hs, not_lt.2 hg,
          ha, hc, Status.isOK]
      exact ⟨ht, fun o' => destruct_of_not_needed _ o' _ ht⟩
    · intro hc
      simp [GlobalInstance.construct, initializeClient, hs, not_lt.2 hg,
        ha, hc, Status.isOK]
  · intro hfail
    show ((initializeClient opts o s).1.isOK &&
      !((initializeClient opts o s).2).autoShutdownArmed) = false
    have hn : (initializeClient opts o s).1.isOK = false := hfail
    rw [hn]
    rfl

theorem terminateNeeded_at_construction_w :
    initState.lifecycle = .Uninitialized ∧
    initState.autoShutdownArmed = false ∧
    (0 : Int) ≤ 5 ∧
    (GlobalInstance.construct
      { shutdownGracePeriod := 5, callShutdownAtExit := true }
      .success initState).1.terminateNeeded = false ∧
    (GlobalInstance.construct
      { shutdownGracePeriod := 5, callShutdownAtExit := false }
      .success initState).1.terminateNeeded = true :=
  ⟨rfl, rfl, by decide,
   (((terminateNeeded_at_construction
       { shutdownGracePeriod := 5, callShutdownAtExit := true }
       .success initState).2.1 rfl rfl (by decide) rfl).1 rfl).1,
   ((terminateNeeded_at_construction
       { shutdownGracePeriod := 5, callShutdownAtExit := false }
       .success initState).2.1 rfl rfl (by decide) rfl).2 rfl⟩

/-- C8: `GlobalInstance::shutdown` returns `Ok` immediately without
delegating whenever `terminateNeeded` is false; otherwise it delegates to
the global shutdown, its resulting `terminateNeeded` is false exactly when
the delegated call returned `Ok` (so the destructor performs no further
teardown), and on any non-Ok result `terminateNeeded` stays true so the
destructor, or a later explicit retry, attempts shutdown again. -/
theorem instance_shutdown_behavior (g : GlobalInstance) (o : TeardownOutcome)
    (s : GlobalState) :
    (g.terminateNeeded = false → GlobalInstance.shutdown g o s = (.ok, g, s)) ∧
    (g.terminateNeeded = true →
      (GlobalInstance.shutdown g o s).1 = (shutdownClient o s).1 ∧
      (GlobalInstance.shutdown g o s).2.2 = (shutdownClient o s).2 ∧
      ((GlobalInstance.shutdown g o s).2.1).terminateNeeded =
        !(shutdownClient o s).1.isOK ∧
      ((shutdownClient o s).1.isOK = true →
        ∀ (o' : TeardownOutcome) (s' : GlobalState),
          GlobalInstance.destruct (GlobalInstance.shutdown g o s).2.1 o' s'
            = s') ∧
      ((shutdownClient o s).1.isOK = false →
        ∀ (o' : TeardownOutcome) (s' : GlobalState),
          GlobalInstance.destruct (GlobalInstance.shutdown g o s).2.1 o' s'
            = (shutdownClient o' s').2)) := by
  constructor
  · exact fun h => instance_shutdown_of_not_needed g o s h
  · intro h
    have h1 : (GlobalInstance.shutdown g o s).1 = (shutdownClient o s).1 := by
      simp [GlobalInstance.shutdown, h]
    have h2 : (GlobalInstance.shutdown g o s).2.2 = (shutdownClient o s).2 := by
      simp [GlobalInstance.shutdown, h]
    have h3 : ((GlobalInstance.shutdown g o s).2.1).terminateNeeded =
        !(shutdownClient o s).1.isOK := by
      simp [GlobalInstance.shutdown, h]
    refine ⟨h1, h2, h3, ?_, ?_⟩
    · intro hok o' s'
      apply destruct_of_not_needed
      rw [h3, hok]
      rfl
    · intro hnot o' s'
      have ht : ((GlobalInstance.shutdown g o s).2.1).terminateNeeded = true := by
        rw [h3, hnot]
        rfl
      simp [GlobalInstance.destruct, ht]

theorem instance_shutdown_behavior_w :
    ({ terminateNeeded := false, status := .ok } :
      GlobalInstance).terminateNeeded = false ∧
    GlobalInstance.shutdown { terminateNeeded := false, status := .ok }
        .success initState =
      (.ok, { terminateNeeded := false, status := .ok }, initState) :=
  ⟨rfl,
   (instance_shutdown_behavior { terminateNeeded := false, status := .ok }
     .success initState).1 rfl⟩

/-- C9: a `GlobalInstance` whose construction failed to initialize the
library never attempts shutdown: for every sequence of explicit shutdown
calls on that instance followed by its destructor, the global state (in
particular the driver teardown invocation count) is exactly the state left
by the failed construction. -/
theorem failed_instance_never_tears_down (opts : Options) (o : SetupOutcome)
    (s₀ : GlobalState)
    (h : (GlobalInstance.construct opts o s₀).1.status.isOK = false)
    (os : List TeardownOutcome) (od : TeardownOutcome) :
    runShutdowns (GlobalInstance.construct opts o s₀).1 os
        (GlobalInstance.construct opts o s₀).2 =
      ((GlobalInstance.construct opts o s₀).1,
       (GlobalInstance.construct opts o s₀).2) ∧
    GlobalInstance.destruct (GlobalInstance.construct opts o s₀).1 od
        (GlobalInstance.construct opts o s₀).2 =
      (GlobalInstance.construct opts o s₀).2 := by
  have ht : (GlobalInstance.construct opts o s₀).1.terminateNeeded = false := by
    show ((initializeClient opts o s₀).1.isOK &&
      !((initializeClient opts o s₀).2).autoShutdownArmed) = false
    have hn : (initializeClient opts o s₀).1.isOK = false := h
    rw [hn]
    rfl
  exact ⟨runShutdowns_of_not_needed os _ _ ht, destruct_of_not_needed _ od _ ht⟩

theorem failed_instance_never_tears_down_w :
    (GlobalInstance.construct
      { shutdownGracePeriod := -1, callShutdownAtExit := false }
      .success initState).1.status.isOK = false ∧
    (runShutdowns (GlobalInstance.construct
        { shutdownGracePeriod := -1, callShutdownAtExit := false }
        .success initState).1 [.success, .timeout]
        (GlobalInstance.construct
          { shutdownGracePeriod := -1, callShutdownAtExit := false }
          .success initState).2 =
      ((GlobalInstance.construct
         { shutdownGracePeriod := -1, callShutdownAtExit := false }
         .success initState).1,
       (GlobalInstance.construct
         { shutdownGracePeriod := -1, callShutdownAtExit := false }
         .success initState).2) ∧
    GlobalInstance.destruct (GlobalInstance.construct
        { shutdownGracePeriod := -1, callShutdownAtExit := false }
        .success initState).1 .timeout
        (GlobalInstance.construct
          { shutdownGracePeriod := -1, callShutdownAtExit := false }
          .success initState).2 =
      (GlobalInstance.construct
        { shutdownGracePeriod := -1, callShutdownAtExit := false }
        .success initState).2) :=
  ⟨rfl,
   failed_instance_never_tears_down
     { shutdownGracePeriod := -1, callShutdownAtExit := false }
     .success initState rfl [.success, .timeout] .timeout⟩

/-- C10: for every `GlobalInstance`, `initialized()` returns true exactly
when `status().isOK()` does, and the captured status (hence the value both
pure accessors report) never changes under any later sequence of explicit
shutdown calls on the instance. -/
theorem initialized_iff_status_ok (g : GlobalInstance) :
    (g.initialized = true ↔ g.status.isOK = true) ∧
    ∀ (os : List TeardownOutcome) (s : GlobalState),
      ((runShutdowns g os s).1).status = g.status ∧
      ((runShutdowns g os s).1).initialized = g.initialized :=
  ⟨Iff.rfl, fun os s =>
    ⟨runShutdowns_status os g s, by
      show ((runShutdowns g os s).1).status.isOK = g.status.isOK
      rw [runShutdowns_status]⟩⟩

end MongoClient
